import Mathlib

/-!
# Verification of the `bouncers` UI layer against its specification

The repository is the TypeScript client of a billiards simulator: wire types
mirroring the server DTOs (`apiTypes.ts`), sample request builders
(`samples.ts`), and two React components (`UnitSquareSimulation`,
`HealthStatus`).  We shallowly embed that code here.  JavaScript `number`
values are modelled as rationals: numeric literals denote their exact decimal
value, and the runtime constant `Math.PI` denotes the exact value of the
IEEE-754 double closest to π.  Parts of the system that live on the server
(the boundary-curve parametrization and the trajectory step loop) are not in
the repository; where a claim depends on them they are modelled from the
specification text and marked as such.
-/

/- ## Wire types (from `src/billiard-ui/src/apiTypes.ts`) -/

/-- `Vec2` from apiTypes.ts: an (x, y) pair of numbers. -/
structure Vec2 where
  x : ℚ
  y : ℚ
deriving DecidableEq, Repr

/-- `SegmentSpec` from apiTypes.ts: a tagged union with tag field `kind`,
variants `"line"` (fields `start`, `end`) and `"circular_arc"` (fields
`center`, `radius`, `start_angle`, `end_angle`, `ccw`).  `end` is a Lean
keyword, so the second line field is called `end_`. -/
inductive SegmentSpec where
  | line (start : Vec2) (end_ : Vec2)
  | circular_arc (center : Vec2) (radius : ℚ) (start_angle : ℚ) (end_angle : ℚ) (ccw : Bool)
deriving DecidableEq, Repr

/-- `BoundarySpec` from apiTypes.ts. -/
structure BoundarySpec where
  name : String
  segments : List SegmentSpec
deriving DecidableEq, Repr

/-- `TableSpec` from apiTypes.ts. -/
structure TableSpec where
  outer : BoundarySpec
  obstacles : List BoundarySpec
deriving DecidableEq, Repr

/-- `BoundaryStateDto` from apiTypes.ts. -/
structure BoundaryStateDto where
  component_index : ℚ
  s : ℚ
  theta : ℚ
deriving DecidableEq, Repr

/-- `SimulateRequest` from apiTypes.ts. -/
structure SimulateRequest where
  table : TableSpec
  initial_state : BoundaryStateDto
  max_steps : ℚ
  epsilon : ℚ
deriving DecidableEq, Repr

/-- `CollisionDto` from apiTypes.ts. -/
structure CollisionDto where
  step : ℚ
  component_index : ℚ
  segment_index : ℚ
  s : ℚ
  theta : ℚ
  x : ℚ
  y : ℚ
deriving DecidableEq, Repr

/-- `SimulateResponse` from apiTypes.ts. -/
structure SimulateResponse where
  collisions : List CollisionDto
deriving DecidableEq, Repr

/-- `HealthResponse` from apiTypes.ts (the `/health` payload). -/
structure HealthResponse where
  status : String
deriving DecidableEq, Repr

/- ## JSON wire layer

The TS types are serialized structurally by `JSON.stringify`; we model the
resulting JSON objects so that "the record has exactly these fields" is a
statement about the wire, not about Lean structure syntax. -/

/-- A JSON value (only the shapes this wire layer produces). -/
inductive Json where
  | num (q : ℚ)
  | str (s : String)
  | bool (b : Bool)
  | arr (elems : List Json)
  | obj (fields : List (String × Json))
deriving Repr

/-- The field names of a JSON object, in order. -/
def jsonKeys : Json → List String
  | .obj fields => fields.map Prod.fst
  | _ => []

/-- Look up a field of a JSON object by name. -/
def jsonLookup (j : Json) (key : String) : Option Json :=
  match j with
  | .obj fields => (fields.find? (fun kv => kv.fst == key)).map Prod.snd
  | _ => none

/-- Serialization of `Vec2`, following the TS object layout. -/
def encodeVec2 (v : Vec2) : Json :=
  Json.obj [("x", Json.num v.x), ("y", Json.num v.y)]

/-- Serialization of `SegmentSpec`: the tag field `kind` carries the variant
name, followed by that variant's own fields, exactly as in apiTypes.ts. -/
def encodeSegmentSpec : SegmentSpec → Json
  | .line a b =>
      Json.obj [("kind", Json.str ("line")), ("start", encodeVec2 a), ("end", encodeVec2 b)]
  | .circular_arc c r sa ea w =>
      Json.obj [("kind", Json.str ("circular_arc")), ("center", encodeVec2 c),
        ("radius", Json.num r), ("start_angle", Json.num sa),
        ("end_angle", Json.num ea), ("ccw", Json.bool w)]

/-- Serialization of `BoundarySpec`. -/
def encodeBoundarySpec (b : BoundarySpec) : Json :=
  Json.obj [("name", Json.str b.name), ("segments", Json.arr (b.segments.map encodeSegmentSpec))]

/-- Serialization of `TableSpec`. -/
def encodeTableSpec (t : TableSpec) : Json :=
  Json.obj [("outer", encodeBoundarySpec t.outer),
    ("obstacles", Json.arr (t.obstacles.map encodeBoundarySpec))]

/-- Serialization of `BoundaryStateDto`. -/
def encodeBoundaryStateDto (b : BoundaryStateDto) : Json :=
  Json.obj [("component_index", Json.num b.component_index), ("s", Json.num b.s),
    ("theta", Json.num b.theta)]

/-- Serialization of `SimulateRequest`. -/
def encodeSimulateRequest (r : SimulateRequest) : Json :=
  Json.obj [("table", encodeTableSpec r.table),
    ("initial_state", encodeBoundaryStateDto r.initial_state),
    ("max_steps", Json.num r.max_steps), ("epsilon", Json.num r.epsilon)]

/-- Serialization of `CollisionDto`. -/
def encodeCollisionDto (c : CollisionDto) : Json :=
  Json.obj [("step", Json.num c.step), ("component_index", Json.num c.component_index),
    ("segment_index", Json.num c.segment_index), ("s", Json.num c.s),
    ("theta", Json.num c.theta), ("x", Json.num c.x), ("y", Json.num c.y)]

/- ## Spec-side field lists (§6 of the spec) -/

/-- From the spec: "boundary state as \x7bcomponent_index, s, theta\x7d". -/
def specBoundaryStateFields : List String := ["component_index", "s", "theta"]

/-- From the spec: "collision record as
\x7bstep, component_index, segment_index, s, theta, x, y\x7d". -/
def specCollisionFields : List String :=
  ["step", "component_index", "segment_index", "s", "theta", "x", "y"]

/-- From the spec (§3): a Simulation Request is `table`, `initial_state`,
`max_steps`, `epsilon`. -/
def specSimulateRequestFields : List String :=
  ["table", "initial_state", "max_steps", "epsilon"]

/-- From the spec (§3): a Line segment on the wire carries the tag `kind`
and the fields `start`, `end`. -/
def specLineFields : List String := ["kind", "start", "end"]

/-- From the spec (§3): an Arc segment on the wire carries the tag `kind`
and the fields `center`, `radius`, `start_angle`, `end_angle`, `ccw`. -/
def specArcFields : List String :=
  ["kind", "center", "radius", "start_angle", "end_angle", "ccw"]

/- ## Sample builders (from `samples.ts`) -/

/-- The exact value of the IEEE-754 double `Math.PI`
(3.141592653589793115997963468544185161590576171875). -/
def mathPI : ℚ := 884279719003555 / 2 ^ 48

/-- `unitSquareBoundary` from samples.ts: the unit square as four line
segments, bottom, right, top, left, starting at the origin.  The `name`
argument defaults to `"outer"` in the source. -/
def unitSquareBoundary (name : String) : BoundarySpec :=
  { name := name
    segments := [
      SegmentSpec.line ⟨0, 0⟩ ⟨1, 0⟩,
      SegmentSpec.line ⟨1, 0⟩ ⟨1, 1⟩,
      SegmentSpec.line ⟨1, 1⟩ ⟨0, 1⟩,
      SegmentSpec.line ⟨0, 1⟩ ⟨0, 0⟩] }

/-- `unitSquareTableSpec` from samples.ts. -/
def unitSquareTableSpec : TableSpec :=
  { outer := unitSquareBoundary "outer", obstacles := [] }

/-- `verticalOrbitInitialState` from samples.ts: `component_index = 0`,
`s = 0.5`, `theta = Math.PI / 2`. -/
def verticalOrbitInitialState : BoundaryStateDto :=
  { component_index := 0, s := 0.5, theta := mathPI / 2 }

/-- `makeUnitSquareSimRequest` from samples.ts. -/
def makeUnitSquareSimRequest : SimulateRequest :=
  { table := unitSquareTableSpec
    initial_state := verticalOrbitInitialState
    max_steps := 4
    epsilon := 1e-8 }

/- ## Segment geometry helpers (lines only; the sample table has no arcs) -/

/-- The start point of a segment, when expressible without trigonometry
(line segments only; arc endpoints need cos/sin, which no claim requires). -/
def segStart : SegmentSpec → Option Vec2
  | .line a _ => some a
  | .circular_arc .. => none

/-- The end point of a segment (line segments only). -/
def segEnd : SegmentSpec → Option Vec2
  | .line _ b => some b
  | .circular_arc .. => none

/-- Whether a segment is a line. -/
def isLine : SegmentSpec → Bool
  | .line .. => true
  | .circular_arc .. => false

/-- Squared Euclidean length of a line segment (`0` for arcs, unused). -/
def lineSqLen : SegmentSpec → ℚ
  | .line a b => (b.x - a.x) ^ 2 + (b.y - a.y) ^ 2
  | .circular_arc .. => 0

/-- Modelled from the spec (§3, Boundary Curve invariant; the validating
code is server-side and absent from the repository): "consecutive segments
are endpoint-connected (the end point of segment i coincides with the start
point of segment i+1 ...), and the last segment's end coincides with the
first segment's start, forming a closed loop".  Stated for line-only
boundaries via `segStart`/`segEnd`. -/
def chainClosed (segs : List SegmentSpec) : Bool :=
  match segs with
  | [] => false
  | first :: _ =>
      (List.zip segs (segs.drop 1)).all (fun p => segEnd p.fst == segStart p.snd) &&
      (match segs.getLast? with
       | some last => segEnd last == segStart first
       | none => false)

/-- Modelled from the spec (§3): "every Segment has strictly positive
length/sweep".  For a line, positive squared length; for an arc, positive
radius and nonzero sweep. -/
def segPositive : SegmentSpec → Bool
  | .line a b => decide (0 < (b.x - a.x) ^ 2 + (b.y - a.y) ^ 2)
  | .circular_arc _ r sa ea _ => decide (0 < r) && decide (sa ≠ ea)

/-- Linear interpolation along a line segment:
`point_at(s) = start + s · (end − start)` (spec §4.2). -/
def linePointAt (a b : Vec2) (t : ℚ) : Vec2 :=
  ⟨a.x + t * (b.x - a.x), a.y + t * (b.y - a.y)⟩

/-- Modelled from the spec (§4.2): `point_at` for a segment; lines only
(arc evaluation needs trigonometry, which no claim requires). -/
def segPointAt : SegmentSpec → ℚ → Option Vec2
  | .line a b, t => some (linePointAt a b t)
  | .circular_arc .., _ => none

/-- Modelled from the spec (§4.3; the Boundary Curve code is server-side and
absent from the repository): the scan through the cumulative parametrization
table.  On the `u`-scale, where "each segment contributes a fixed unit of
global parametrization length", segment `k` covers `[k, k+1)`: walk the
segments, subtracting one unit per segment passed; the final unit is closed
on the right so that `u = n` (that is, `s = 1`) denotes the loop's closing
point, the same point as `s = 0`. -/
def locateSeg : List SegmentSpec → ℚ → Option (Nat × ℚ)
  | [], _ => none
  | [_], u => some (0, u)
  | _ :: b :: rest, u =>
      if u < 1 then some (0, u)
      else (locateSeg (b :: rest) (u - 1)).map (fun p => (p.fst + 1, p.snd))

/-- Modelled from the spec (§4.3): the global-s → (segment_index, local_s)
mapping.  A global `s ∈ [0,1]` for a curve of `n` segments is rescaled to
`u = s·n` and located by `locateSeg`.  For the unit square all four segments
have equal length, so this coincides with the arc-length-proportional
alternative the spec also allows (its §9 open question). -/
def globalToLocal (segs : List SegmentSpec) (s : ℚ) : Option (Nat × ℚ) :=
  locateSeg segs (s * segs.length)

/-- Modelled from the spec (§4.3): the absolute point a global `s` denotes on
a boundary curve: map `s` through `globalToLocal`, then evaluate the selected
segment's `point_at` at the local parameter. -/
def globalPoint (segs : List SegmentSpec) (s : ℚ) : Option Vec2 :=
  (globalToLocal segs s).bind (fun il => (segs[il.fst]?).bind (fun seg => segPointAt seg il.snd))

/- ## Trajectory step loop (spec §4.5) -/

/-- Modelled from the spec (§4.5; the Trajectory Engine is server-side and
absent from the repository): the data a single collision contributes to its
record, before the step index is attached — struck component and segment,
local parameter, outgoing direction, and impact point. -/
structure CollisionData where
  component_index : Nat
  segment_index : Nat
  s : ℚ
  theta : ℚ
  x : ℚ
  y : ℚ

/-- A collision record carrying "this step's index" (spec §4.5 item 6). -/
def mkCollisionDto (i : Nat) (c : CollisionData) : CollisionDto :=
  ⟨(i : ℚ), (c.component_index : ℚ), (c.segment_index : ℚ), c.s, c.theta, c.x, c.y⟩

/-- Modelled from the spec (§4.5; the Trajectory Engine is server-side and
absent from the repository): the step loop.  `next` abstracts steps 1–5 and 7
of §4.5 (position/direction computation, nearest-forward-intersection query,
reflection, and the intrinsic-state update): it either yields the collision
data and the updated intrinsic state, or `none` on a fatal
`NoIntersectionError`, in which case the run stops early keeping the prefix.
`fuel` counts the remaining steps, `i` is the current step index. -/
def runSteps (next : BoundaryStateDto → Option (CollisionData × BoundaryStateDto)) :
    Nat → Nat → BoundaryStateDto → List CollisionDto
  | 0, _, _ => []
  | fuel + 1, i, st =>
    match next st with
    | none => []
    | some cs => mkCollisionDto i cs.fst :: runSteps next fuel (i + 1) cs.snd

/-- Modelled from the spec (§4.5): a whole run starts at step index 0 with
`max_steps` steps of budget. -/
def simulate (next : BoundaryStateDto → Option (CollisionData × BoundaryStateDto))
    (max_steps : Nat) (st0 : BoundaryStateDto) : List CollisionDto :=
  runSteps next max_steps 0 st0

/- ## `UnitSquareSimulation` component (from `UnitSquareSimulation.tsx`) -/

/-- `SimStatus` from UnitSquareSimulation.tsx. -/
inductive SimStatus where
  | idle
  | running
  | success
  | error
deriving DecidableEq, Repr

/-- The component's state: the three `useState` hooks of
`UnitSquareSimulation`. -/
structure SimState where
  status : SimStatus
  error : Option String
  collisions : List CollisionDto
deriving DecidableEq, Repr

/-- The initial hook values: `"idle"`, `null`, `[]`. -/
def simInitState : SimState :=
  { status := SimStatus.idle, error := none, collisions := [] }

/-- The outcome of the `fetch` and parse inside `runSimulation`'s `try`
block: the promise rejects (network error; `some msg` when the thrown value
is an `Error`), the response is non-ok (status code and body text), the
response is ok but `res.json()` throws, or an ok response parses to a
`SimulateResponse`. -/
inductive FetchOutcome where
  | fetchThrow (msg : Option String)
  | notOk (statusCode : Nat) (text : String)
  | okBadJson (msg : Option String)
  | okJson (data : SimulateResponse)

/-- The `catch` block's message selection: `err.message` when the thrown
value is an `Error`, else the fallback string. -/
def errMessage : Option String → String
  | some m => m
  | none => "Unknown error during simulation"

/-- The message of the error thrown on a non-ok response:
`HTTP <status>: <text>`. -/
def httpErrorMsg (code : Nat) (text : String) : String :=
  "HTTP " ++ toString code ++ ": " ++ text

/-- The state after the three synchronous updates at the top of
`runSimulation`: status `"running"`, error cleared, collisions cleared. -/
def simClearState : SimState :=
  { status := SimStatus.running, error := none, collisions := [] }

/-- The state updates `runSimulation` performs after the awaited work
resolves, applied to the state `st` left by the synchronous prefix: the
success path sets `collisions` then status `"success"`; every throw lands in
the `catch` block, which sets `error` then status `"error"` and leaves
`collisions` untouched. -/
def applyOutcome (st : SimState) (o : FetchOutcome) : SimState :=
  match o with
  | .okJson d => { st with collisions := d.collisions, status := SimStatus.success }
  | .fetchThrow m => { st with error := some (errMessage m), status := SimStatus.error }
  | .notOk c t =>
      { st with error := some (errMessage (some (httpErrorMsg c t))), status := SimStatus.error }
  | .okBadJson m => { st with error := some (errMessage m), status := SimStatus.error }

/-- The states the component passes through during one `runSimulation` call:
the cleared state, then the final state for the given outcome. -/
def runStates (o : FetchOutcome) : List SimState :=
  [simClearState, applyOutcome simClearState o]

/-- The invariant of claim C9: in an `"error"` state the collision list is
empty and the error message is present; in a `"success"` state the error
message is absent. -/
def simInvariant (st : SimState) : Bool :=
  match st.status with
  | SimStatus.error => st.collisions.isEmpty && st.error.isSome
  | SimStatus.success => st.error.isNone
  | _ => true

/- ## `HealthStatus` component (from `HealthStatus.tsx`) -/

/-- `Status` from HealthStatus.tsx. -/
inductive HealthUiStatus where
  | idle
  | loading
  | success
  | error
deriving DecidableEq, Repr

/-- A single React state update performed by `HealthStatus`. -/
inductive HealthUpdate where
  | setStatus (s : HealthUiStatus)
  | setMessage (m : Option String)
deriving DecidableEq, Repr

/-- The outcome of the awaited work in `checkHealth`: fetch rejection,
non-ok response, ok response whose `res.json()` throws, or a parsed
`HealthResponse`. -/
inductive HealthOutcome where
  | fetchThrow (msg : Option String)
  | notOk (statusCode : Nat)
  | okBadJson (msg : Option String)
  | okJson (data : HealthResponse)

/-- The `catch` block's message selection in `checkHealth`. -/
def healthErrMessage : Option String → String
  | some m => m
  | none => "Unknown error while calling /health"

/-- The state updates `checkHealth` performs after its awaited work resolves,
given the value of the effect's `cancelled` flag at that moment: both the
success branch and the `catch` branch are guarded by `if (!cancelled)`. -/
def checkHealthResolved (cancelled : Bool) (o : HealthOutcome) : List HealthUpdate :=
  match o with
  | .okJson d =>
      if cancelled then []
      else [HealthUpdate.setStatus HealthUiStatus.success,
        HealthUpdate.setMessage (some ("API status: " ++ d.status))]
  | .fetchThrow m =>
      if cancelled then []
      else [HealthUpdate.setStatus HealthUiStatus.error,
        HealthUpdate.setMessage (some (healthErrMessage m))]
  | .notOk c =>
      if cancelled then []
      else [HealthUpdate.setStatus HealthUiStatus.error,
        HealthUpdate.setMessage (some (healthErrMessage (some ("HTTP " ++ toString c))))]
  | .okBadJson m =>
      if cancelled then []
      else [HealthUpdate.setStatus HealthUiStatus.error,
        HealthUpdate.setMessage (some (healthErrMessage m))]

/- ## Theorems -/

/-- C1: the wire records carry exactly the spec's fields, in the spec's
order and nesting: a boundary state serializes with exactly the fields
`component_index, s, theta`; a collision record with exactly
`step, component_index, segment_index, s, theta, x, y`; a simulation request
with exactly `table, initial_state, max_steps, epsilon`. -/
theorem wire_types_exact_fields :
    (∀ b : BoundaryStateDto, jsonKeys (encodeBoundaryStateDto b) = specBoundaryStateFields) ∧
    (∀ c : CollisionDto, jsonKeys (encodeCollisionDto c) = specCollisionFields) ∧
    (∀ r : SimulateRequest, jsonKeys (encodeSimulateRequest r) = specSimulateRequestFields) :=
  ⟨fun _ => rfl, fun _ => rfl, fun _ => rfl⟩

/-- C4: a segment on the wire is a closed union of exactly two variants:
every `SegmentSpec` is a line or a circular arc; the line variant serializes
with exactly the fields `kind, start, end` and tag value `"line"`; the arc
variant with exactly `kind, center, radius, start_angle, end_angle, ccw` and
tag value `"circular_arc"`. -/
theorem segmentSpec_closed_union :
    (∀ seg : SegmentSpec, (∃ a b, seg = SegmentSpec.line a b) ∨
      (∃ c r sa ea w, seg = SegmentSpec.circular_arc c r sa ea w)) ∧
    (∀ a b, jsonKeys (encodeSegmentSpec (SegmentSpec.line a b)) = specLineFields) ∧
    (∀ a b, jsonLookup (encodeSegmentSpec (SegmentSpec.line a b)) ("kind") =
      some (Json.str ("line"))) ∧
    (∀ c r sa ea w, jsonKeys (encodeSegmentSpec (SegmentSpec.circular_arc c r sa ea w)) =
      specArcFields) ∧
    (∀ c r sa ea w, jsonLookup (encodeSegmentSpec (SegmentSpec.circular_arc c r sa ea w))
      ("kind") = some (Json.str ("circular_arc"))) := by
  refine ⟨fun seg => ?_, fun a b => rfl, fun a b => rfl,
    fun c r sa ea w => rfl, fun c r sa ea w => rfl⟩
  cases seg with
  | line a b => exact Or.inl ⟨a, b, rfl⟩
  | circular_arc c r sa ea w => exact Or.inr ⟨c, r, sa, ea, w, rfl⟩

/-- C2: `makeUnitSquareSimRequest` is exactly the spec's §8 scenario: the
outer boundary is four unit-length line segments tracing the unit square
from the origin (closed chain through (0,0), (1,0), (1,1), (0,1)), no
obstacles, initial state `component_index = 0`, `s = 0.5`,
`theta = Math.PI / 2` (the double for π/2), `max_steps = 4`, and
`epsilon = 1e-8`. -/
theorem makeUnitSquareSimRequest_is_spec_scenario :
    makeUnitSquareSimRequest.table.outer.segments.length = 4 ∧
    makeUnitSquareSimRequest.table.outer.segments.all
      (fun g => isLine g && (lineSqLen g == 1)) = true ∧
    chainClosed makeUnitSquareSimRequest.table.outer.segments = true ∧
    makeUnitSquareSimRequest.table.outer.segments.map segStart =
      [some ⟨0, 0⟩, some ⟨1, 0⟩, some ⟨1, 1⟩, some ⟨0, 1⟩] ∧
    makeUnitSquareSimRequest.table.obstacles = [] ∧
    makeUnitSquareSimRequest.initial_state.component_index = 0 ∧
    makeUnitSquareSimRequest.initial_state.s = 0.5 ∧
    makeUnitSquareSimRequest.initial_state.theta = mathPI / 2 ∧
    makeUnitSquareSimRequest.max_steps = 4 ∧
    makeUnitSquareSimRequest.epsilon = 1e-8 := by
  refine ⟨rfl, ?_, rfl, rfl, rfl, rfl, rfl, rfl, rfl, rfl⟩
  norm_num [makeUnitSquareSimRequest, unitSquareTableSpec, unitSquareBoundary,
    isLine, lineSqLen]

/-- C5: for every `name`, the boundary `unitSquareBoundary name` satisfies
the Boundary Curve validity invariant: consecutive segments are
endpoint-connected, the loop closes (last end = first start), and every
segment has strictly positive length. -/
theorem unitSquareBoundary_valid (name : String) :
    chainClosed (unitSquareBoundary name).segments = true ∧
    (unitSquareBoundary name).segments.all segPositive = true :=
  ⟨rfl, by norm_num [unitSquareBoundary, segPositive]⟩

/-- C3 counterexample: under the §4.3 mapping a global `s = 0.5` on the
unit-square boundary does not denote the bottom-edge midpoint `(0.5, 0)`:
half-way round the square's perimeter from `(0, 0)` is the opposite corner
`(1, 1)` (segment 2, local 0). -/
theorem global_s_half_counterexample :
    globalPoint (unitSquareBoundary "outer").segments 0.5 = some ⟨1, 1⟩ ∧
    globalPoint (unitSquareBoundary "outer").segments 0.5 ≠ some ⟨0.5, 0⟩ := by
  constructor <;>
    norm_num [globalPoint, globalToLocal, locateSeg, unitSquareBoundary, segPointAt, linePointAt]

/-- C3 amended: on the unit-square boundary the §4.3 global-s mapping sends
`s = 0.5` to segment 2 at local 0, the corner `(1, 1)`; the midpoint
`(0.5, 0)` of the bottom edge is denoted by the global parameter
`s = 0.125` (segment 0, local 0.5).  The sample initial state's `s = 0.5`
matches the spec's intended starting point `(0.5, 0)` only under a
different, unnormalized reading of `s`. -/
theorem global_s_midpoint_amended :
    globalToLocal (unitSquareBoundary "outer").segments 0.5 = some (2, 0) ∧
    globalPoint (unitSquareBoundary "outer").segments 0.5 = some ⟨1, 1⟩ ∧
    globalToLocal (unitSquareBoundary "outer").segments 0.125 = some (0, 0.5) ∧
    globalPoint (unitSquareBoundary "outer").segments 0.125 = some ⟨0.5, 0⟩ := by
  refine ⟨?_, ?_, ?_, ?_⟩ <;>
    norm_num [globalPoint, globalToLocal, locateSeg, unitSquareBoundary, segPointAt, linePointAt]

/-- The step fields a run of the loop emits, starting at step index `i`, are
`i, i+1, …` in order. -/
theorem runSteps_step_fields
    (next : BoundaryStateDto → Option (CollisionData × BoundaryStateDto)) :
    ∀ (fuel i : Nat) (st : BoundaryStateDto),
      (runSteps next fuel i st).map CollisionDto.step =
        (List.range' i (runSteps next fuel i st).length).map (fun k : Nat => (k : ℚ)) := by
  intro fuel
  induction fuel with
  | zero => intro i st; rfl
  | succ fuel ih =>
    intro i st
    cases h : next st with
    | none => simp [runSteps, h]
    | some cs =>
      have ihs := ih (i + 1) cs.snd
      simp [runSteps, h, List.range'_succ, mkCollisionDto, ihs]

/-- C6: in every simulation result the `step` fields of the collision
records are exactly `0, 1, 2, …` up to the result's length — a strictly
increasing sequence with no gaps, so in particular all `step` values are
distinct.  Proven for every geometry oracle, step budget, and initial
state. -/
theorem simulate_step_fields_strictly_increasing
    (next : BoundaryStateDto → Option (CollisionData × BoundaryStateDto))
    (max_steps : Nat) (st0 : BoundaryStateDto) :
    (simulate next max_steps st0).map CollisionDto.step =
      (List.range (simulate next max_steps st0).length).map (fun k : Nat => (k : ℚ)) ∧
    ((simulate next max_steps st0).map CollisionDto.step).Pairwise (· < ·) := by
  have h : (simulate next max_steps st0).map CollisionDto.step =
      (List.range (simulate next max_steps st0).length).map (fun k : Nat => (k : ℚ)) := by
    have := runSteps_step_fields next max_steps 0 st0
    simpa [simulate, List.range_eq_range'] using this
  refine ⟨h, ?_⟩
  rw [h]
  exact List.Pairwise.map (fun k : Nat => (k : ℚ))
    (fun a b hab => Nat.cast_lt.mpr hab) (List.pairwise_lt_range _)

/-- C7: every failure of `runSimulation`'s `/simulate` call ends in status
`"error"` with a message present: a rejected fetch produces the thrown
error's message (or the fallback text), a non-ok HTTP response produces a
message carrying the HTTP status code, a body that fails to parse produces
the parse error's message; success is reported only for a received, parsed
response, and every outcome leaves status `"success"` or `"error"`, never
`"running"`. -/
theorem runSimulation_error_handling :
    (∀ m, (applyOutcome simClearState (FetchOutcome.fetchThrow m)).status = SimStatus.error ∧
      (applyOutcome simClearState (FetchOutcome.fetchThrow m)).error = some (errMessage m)) ∧
    (∀ c t, (applyOutcome simClearState (FetchOutcome.notOk c t)).status = SimStatus.error ∧
      (applyOutcome simClearState (FetchOutcome.notOk c t)).error =
        some ("HTTP " ++ toString c ++ ": " ++ t)) ∧
    (∀ m, (applyOutcome simClearState (FetchOutcome.okBadJson m)).status = SimStatus.error ∧
      (applyOutcome simClearState (FetchOutcome.okBadJson m)).error = some (errMessage m)) ∧
    (∀ d, (applyOutcome simClearState (FetchOutcome.okJson d)).status = SimStatus.success ∧
      (applyOutcome simClearState (FetchOutcome.okJson d)).collisions = d.collisions) ∧
    (∀ o, (applyOutcome simClearState o).status = SimStatus.success ∨
      (applyOutcome simClearState o).status = SimStatus.error) := by
  refine ⟨fun m => ⟨rfl, rfl⟩, fun c t => ⟨rfl, rfl⟩, fun m => ⟨rfl, rfl⟩,
    fun d => ⟨rfl, rfl⟩, fun o => ?_⟩
  cases o with
  | fetchThrow m => exact Or.inr rfl
  | notOk c t => exact Or.inr rfl
  | okBadJson m => exact Or.inr rfl
  | okJson d => exact Or.inl rfl

/-- C8: the sample builders are pure: in this embedding each is a constant
definition, so any two calls give structurally equal values; moreover the
segment list of `unitSquareBoundary` is the same for every `name` argument,
and only the `name` field depends on it. -/
theorem sample_builders_pure :
    (∀ n1 n2 : String, (unitSquareBoundary n1).segments = (unitSquareBoundary n2).segments) ∧
    (∀ n : String, (unitSquareBoundary n).name = n) ∧
    makeUnitSquareSimRequest = makeUnitSquareSimRequest ∧
    unitSquareTableSpec = unitSquareTableSpec ∧
    verticalOrbitInitialState = verticalOrbitInitialState :=
  ⟨fun _ _ => rfl, fun _ => rfl, rfl, rfl, rfl⟩

/-- C9: `UnitSquareSimulation` maintains the state invariant: it holds in
the initial state, and in every state the component passes through during a
`runSimulation` call, for every fetch outcome — in an `"error"` state the
collision list is empty and the error message present, and in a `"success"`
state the error message is absent. -/
theorem simulation_state_invariant :
    simInvariant simInitState = true ∧
    (∀ o, (runStates o).all simInvariant = true) := by
  refine ⟨rfl, fun o => ?_⟩
  cases o <;> rfl

/-- C10: once the effect cleanup of `HealthStatus` has set the `cancelled`
flag, `checkHealth` performs no state update at all when its awaited work
resolves, whichever way it resolves. -/
theorem healthStatus_no_update_after_cancel (o : HealthOutcome) :
    checkHealthResolved true o = [] := by
  cases o <;> rfl
